import Mathlib

/-!
Verification development for the terrain3d frontend.

The definitions below are shallow embeddings of the TypeScript source:
  - `estimateTriangles`, `estimateFileSize` from
    src/frontend/src/components/ExportPanel.tsx
  - `fetchResolution`, `totalPoints`, `totalBatches` and the state
    transitions of `loadTerrain` / `downloadSTL` from
    src/frontend/src/hooks/useTerrain.ts
  - the preview mesh construction (terrain surface, base box, skirt
    walls) from src/frontend/src/components/TerrainViewer.tsx, with
    three.js `PlaneGeometry` / `BoxGeometry` expanded to their vertex
    and index layout.

Numbers that are JavaScript `number`s carrying geometry are embedded as
rationals; integer quantities (resolutions, batch counts) as naturals.
-/

namespace Terrain3d

/-! ## EstimationCalculator (ExportPanel.tsx, lines 17-28) -/

/-- Function estimateTriangles of ExportPanel.tsx:
`terrainTris = 2*(resolution-1)**2`; without base return it; with base add
`baseTris = terrainTris` and `sideTris = 4*2*(resolution-1)`. -/
def estimateTriangles (resolution : ℕ) (addBase : Bool) : ℕ :=
  let terrainTris := 2 * (resolution - 1) ^ 2
  if !addBase then terrainTris
  else
    let baseTris := terrainTris
    let sideTris := 4 * 2 * (resolution - 1)
    terrainTris + baseTris + sideTris

/-- Function estimateFileSize of ExportPanel.tsx: `84 + triangles * 50`. -/
def estimateFileSize (resolution : ℕ) (addBase : Bool) : ℕ :=
  let triangles := estimateTriangles resolution addBase
  84 + triangles * 50

/-! ## Acquisition batch arithmetic (useTerrain.ts, lines 49-52) -/

/-- Local `fetchResolution = Math.min(settings.resolution, 64)` of loadTerrain. -/
def fetchResolution (resolution : ℕ) : ℕ := min resolution 64

/-- Local `totalPoints = fetchResolution * fetchResolution` of loadTerrain. -/
def totalPoints (resolution : ℕ) : ℕ :=
  fetchResolution resolution * fetchResolution resolution

/-- Constant `batchSize = 500` of loadTerrain. -/
def batchSize : ℕ := 500

/-- Local `totalBatches = Math.ceil(totalPoints / batchSize)` of loadTerrain:
JavaScript real division followed by ceiling. -/
def totalBatches (resolution : ℕ) : ℤ :=
  ⌈(totalPoints resolution : ℚ) / (batchSize : ℚ)⌉

/-! ## Hook state (useTerrain.ts) -/

/-- Interface LoadingProgress of useTerrain.ts. -/
structure LoadingProgress where
  current : ℕ
  total : ℕ
  message : Option String
deriving DecidableEq, Repr

/-- Interface TerrainMetadata of lib/types.ts. -/
structure TerrainMetadata where
  center_lat : ℚ
  center_lon : ℚ
  min_elevation : ℚ
  max_elevation : ℚ
  data_source : String
  timestamp : String
  resolution : ℕ
deriving DecidableEq, Repr

/-- Interface BBox of lib/types.ts. -/
structure BBox where
  lat_min : ℚ
  lat_max : ℚ
  lon_min : ℚ
  lon_max : ℚ
deriving DecidableEq, Repr

/-- Interface TerrainResponse of lib/types.ts (heightmap rows of rationals). -/
structure TerrainResponse where
  id : String
  heightmap : List (List ℚ)
  metadata : TerrainMetadata
  bounds : BBox
deriving DecidableEq, Repr

/-- Interface TerrainState of useTerrain.ts. -/
structure TerrainState where
  terrain : Option TerrainResponse
  isLoading : Bool
  isExporting : Bool
  error : Option String
  progress : Option LoadingProgress
deriving DecidableEq, Repr

/-- Interface TerrainSettings of useTerrain.ts. -/
structure TerrainSettings where
  resolution : ℕ
  heightExaggeration : ℚ
  scaleXY : ℚ
  scaleZ : ℚ
  addBase : Bool
  baseThickness : ℚ
deriving DecidableEq, Repr

/-- The hook's full session state: the `useState` pair of `state` and
`settings`. -/
structure Session where
  state : TerrainState
  settings : TerrainSettings
deriving DecidableEq, Repr

/-- Outcome of an awaited API call: the resolved value or the thrown
error message. -/
abbrev Outcome (α : Type) := Except String α

/-- First `setState` of `loadTerrain` (lines 54-63): mark loading,
clear the error, reset progress to batch 0 of `totalBatches`. -/
def loadTerrainStart (resolution : ℕ) (s : TerrainState) : TerrainState :=
  { s with
    isLoading := true
    error := none
    progress := some
      { current := 0
        total := (totalBatches resolution).toNat
        message := some "Connexion au serveur..." } }

/-- One tick of the simulated-progress interval (lines 66-79): the
counter increments and, while `currentBatch <= totalBatches`, progress is
overwritten; past the end the tick is a no-op. -/
def progressTick (resolution : ℕ) (currentBatch : ℕ) (s : TerrainState) :
    TerrainState :=
  if currentBatch ≤ (totalBatches resolution).toNat then
    { s with
      progress := some
        { current := currentBatch
          total := (totalBatches resolution).toNat
          message := some "Telechargement des donnees SRTM..." } }
  else s

/-- Settling `setState` of `loadTerrain` (lines 101-117): on success store
the terrain, on failure store the message; either way loading ends and
progress is cleared. -/
def loadTerrainSettle (outcome : Outcome TerrainResponse) (s : TerrainState) :
    TerrainState :=
  match outcome with
  | .ok terrain =>
      { s with terrain := some terrain, isLoading := false, progress := none }
  | .error message =>
      { s with isLoading := false, progress := none, error := some message }

/-- A whole `loadTerrain` run on the session: the start `setState`, then
`ticks` interval ticks (counter starting at 1), then the settling
`setState`. `setSettings` is never called, so `settings` passes through. -/
def loadTerrainRun (ticks : ℕ) (outcome : Outcome TerrainResponse)
    (sess : Session) : Session :=
  let r := sess.settings.resolution
  let s0 := loadTerrainStart r sess.state
  let s1 := (List.range ticks).foldl
    (fun s k => progressTick r (k + 1) s) s0
  { sess with state := loadTerrainSettle outcome s1 }

/-- Function downloadSTL (lines 121-179) as a session transition. Returns the new
session and whether an export request was actually issued. With no terrain
it is the guarded early `return`; otherwise the exporting `setState`, the
timeout progress update, the `exportSTL` call and the settling `setState`. -/
def downloadSTLRun (outcome : Outcome Unit) (sess : Session) :
    Session × Bool :=
  match sess.state.terrain with
  | none => (sess, false)
  | some _ =>
      let s0 := { sess.state with
        isExporting := true
        error := none
        progress := some
          { current := 0, total := 2, message := some "Generation du modele 3D..." } }
      let s1 := { s0 with
        progress := some
          { current := 1, total := 2, message := some "Creation du mesh watertight..." } }
      let s2 := match outcome with
        | .ok _ => { s1 with isExporting := false, progress := none }
        | .error message =>
            { s1 with isExporting := false, progress := none, error := some message }
      ({ sess with state := s2 }, true)

/-! ## Preview mesh geometry (TerrainViewer.tsx) -/

/-- A point of three-dimensional space, with rational coordinates. -/
structure Vec3 where
  x : ℚ
  y : ℚ
  z : ℚ
deriving DecidableEq, Repr

/-- A triangle of the preview mesh, as its three vertex positions in
emission order. -/
structure Tri where
  a : Vec3
  b : Vec3
  c : Vec3
deriving DecidableEq, Repr

/-- A heightmap as delivered in `TerrainResponse.heightmap`: a list of
rows. -/
abbrev Heightmap := List (List ℚ)

/-- Expression `heightmap.length` (rows). -/
def rowsOf (hm : Heightmap) : ℕ := hm.length

/-- Expression `heightmap[0].length` (cols). -/
def colsOf (hm : Heightmap) : ℕ := (hm.headD []).length

/-- Raw JavaScript index access `heightmap[i][j]` (out-of-range access is
given the junk value 0; the claims only evaluate it in range). -/
def elevAt (hm : Heightmap) (i j : ℕ) : ℚ := (hm.getD i []).getD j 0

/-- Minimum of a list, as the `Math.min` fold of both min/max loops of
TerrainViewer.tsx computes it: seeded with Infinity, so on a nonempty
list it is the least element (the empty case never occurs there; 0 is a
junk value). -/
def listMin : List ℚ → ℚ
  | [] => 0
  | x :: xs => xs.foldl min x

/-- Maximum of a list, as the `Math.max` fold computes it (seed
-Infinity). -/
def listMax : List ℚ → ℚ
  | [] => 0
  | x :: xs => xs.foldl max x

/-- Local `minElev` of TerrainMesh / SideWalls: grid-wide minimum, taken
over the rows in row-major order. -/
def minElev (hm : Heightmap) : ℚ := listMin hm.flatten

/-- Local `maxElev` of TerrainMesh / SideWalls. -/
def maxElev (hm : Heightmap) : ℚ := listMax hm.flatten

/-- Local `elevRange = maxElev - minElev || 1` — the JavaScript `||`
turns a zero range into 1. -/
def elevRange (hm : Heightmap) : ℚ :=
  if maxElev hm - minElev hm = 0 then 1 else maxElev hm - minElev hm

/-- Shared normalization `(elev - minElev) / elevRange`. -/
def normalizedOf (hm : Heightmap) (elev : ℚ) : ℚ :=
  (elev - minElev hm) / elevRange hm

/-- Elevation sampled for surface vertex `(i, j)` in the TerrainMesh
loop, line 65: `heightmap[rows - 1 - i][j]`. -/
def surfaceElev (hm : Heightmap) (i j : ℕ) : ℚ :=
  elevAt hm (rowsOf hm - 1 - i) j

/-- Height written into the position buffer for vertex `(i, j)`:
`normalizedElev * 3` (TerrainMesh lines 66-69). -/
def surfaceY (hm : Heightmap) (i j : ℕ) : ℚ :=
  normalizedOf hm (surfaceElev hm i j) * 3

/-- Elevation read by `getY` in SideWalls, line 176:
`heightmap[rows - 1 - i][j]`. -/
def getYElev (hm : Heightmap) (i j : ℕ) : ℚ :=
  elevAt hm (rowsOf hm - 1 - i) j

/-- Function `getY` of SideWalls (lines 175-178):
`((elev - minElev) / elevRange) * 3`. -/
def getY (hm : Heightmap) (i j : ℕ) : ℚ :=
  normalizedOf hm (getYElev hm i j) * 3

/-- The constant `size = 10` of TerrainMesh and the `size` prop of
SideWalls. -/
def footprintSize : ℚ := 10

/-- Surface vertex `(i, j)` after `PlaneGeometry(size, size, cols-1,
rows-1)`, `rotateX(-PI/2)` and the height write: x = `j*seg - 5` with
`seg = size/(cols-1)`, z = `i*seg - 5` with `seg = size/(rows-1)`, y the
normalized height. -/
def surfaceVertex (hm : Heightmap) (i j : ℕ) : Vec3 :=
  { x := (j : ℚ) * (footprintSize / ((colsOf hm : ℚ) - 1)) - footprintSize / 2
    y := surfaceY hm i j
    z := (i : ℚ) * (footprintSize / ((rowsOf hm : ℚ) - 1)) - footprintSize / 2 }

/-- The y values the TerrainMesh loop ranges over, in loop order. -/
def surfaceYs (hm : Heightmap) : List ℚ :=
  (List.range (rowsOf hm)).flatMap fun i =>
    (List.range (colsOf hm)).map fun j => surfaceY hm i j

/-- Local `minY` of TerrainMesh: minimum vertex height (Math.min fold
seeded with Infinity over the loop). -/
def minYv (hm : Heightmap) : ℚ := listMin (surfaceYs hm)

/-- Triangles of the terrain surface: the index pattern of
`THREE.PlaneGeometry` — for each cell `(iy, ix)` the triangles
`(a, b, d)` and `(b, c, d)` with `a = (iy, ix)`, `b = (iy+1, ix)`,
`c = (iy+1, ix+1)`, `d = (iy, ix+1)` — resolved to vertex positions. -/
def surfaceTriangles (hm : Heightmap) : List Tri :=
  (List.range (rowsOf hm - 1)).flatMap fun iy =>
    (List.range (colsOf hm - 1)).flatMap fun ix =>
      [ { a := surfaceVertex hm iy ix
          b := surfaceVertex hm (iy + 1) ix
          c := surfaceVertex hm iy (ix + 1) }
      , { a := surfaceVertex hm (iy + 1) ix
          b := surfaceVertex hm (iy + 1) (ix + 1)
          c := surfaceVertex hm iy (ix + 1) } ]

/-- Coordinate axes, for the `u`/`v`/`w` component names of the
three.js `buildPlane` helper. -/
inductive Axis
  | x
  | y
  | z
deriving DecidableEq, Repr

/-- Writing component `a` of a vector (the `vector[u] = ...`
assignments of `buildPlane`). -/
def axisSet (a : Axis) (q : ℚ) (v : Vec3) : Vec3 :=
  match a with
  | .x => { v with x := q }
  | .y => { v with y := q }
  | .z => { v with z := q }

/-- One corner vertex of a 1-segment `buildPlane` face:
`vector[u] = (ix*width - width/2) * udir`,
`vector[v] = (iy*height - height/2) * vdir`, `vector[w] = depth/2`. -/
def planeVert (u v w : Axis) (udir vdir : ℚ) (pw ph pd : ℚ) (ix iy : ℕ) :
    Vec3 :=
  axisSet u (((ix : ℚ) * pw - pw / 2) * udir)
    (axisSet v (((iy : ℚ) * ph - ph / 2) * vdir)
      (axisSet w (pd / 2) { x := 0, y := 0, z := 0 }))

/-- One face of `THREE.BoxGeometry` (1×1 segments): 4 corner vertices and
the two index triangles `(a, b, d)`, `(b, c, d)` with
`a = (ix 0, iy 0)`, `b = (ix 0, iy 1)`, `c = (ix 1, iy 1)`,
`d = (ix 1, iy 0)`. -/
def buildPlane1 (u v w : Axis) (udir vdir : ℚ) (pw ph pd : ℚ) : List Tri :=
  [ { a := planeVert u v w udir vdir pw ph pd 0 0
      b := planeVert u v w udir vdir pw ph pd 0 1
      c := planeVert u v w udir vdir pw ph pd 1 0 }
  , { a := planeVert u v w udir vdir pw ph pd 0 1
      b := planeVert u v w udir vdir pw ph pd 1 1
      c := planeVert u v w udir vdir pw ph pd 1 0 } ]

/-- The 12 triangles of `THREE.BoxGeometry(width, height, depth)`, six
`buildPlane` calls exactly as in the three.js source (px, nx, py, ny,
pz, nz). -/
def boxTriangles (width height depth : ℚ) : List Tri :=
  buildPlane1 .z .y .x (-1) (-1) depth height width ++
    buildPlane1 .z .y .x 1 (-1) depth height (-width) ++
      buildPlane1 .x .z .y 1 1 width depth height ++
        buildPlane1 .x .z .y 1 (-1) width depth (-height) ++
          buildPlane1 .x .y .z 1 (-1) width height depth ++
            buildPlane1 .x .y .z (-1) (-1) width height (-depth)

/-- Translation of a point along y (the base mesh is rendered at
`position = [0, baseGeometry.positionY, 0]`). -/
def translateY (dy : ℚ) (v : Vec3) : Vec3 := { v with y := v.y + dy }

/-- Translation of a triangle along y. -/
def triTranslateY (dy : ℚ) (t : Tri) : Tri :=
  { a := translateY dy t.a, b := translateY dy t.b, c := translateY dy t.c }

/-- Local `baseY = minY - baseHeight / 2` of the `baseGeometry` memo
(TerrainViewer.tsx line 103): the world y of the base box center. -/
def basePositionY (hm : Heightmap) (baseThickness : ℚ) : ℚ :=
  minYv hm - baseThickness / 2

/-- The base plate of the preview: `BoxGeometry(size, baseThickness,
size)` placed at `[0, basePositionY, 0]`. -/
def baseTriangles (hm : Heightmap) (baseThickness : ℚ) : List Tri :=
  (boxTriangles footprintSize baseThickness footprintSize).map
    (triTranslateY (basePositionY hm baseThickness))

/-- World y of the top plane of the base box: center + height/2. -/
def basePlateTopY (hm : Heightmap) (baseThickness : ℚ) : ℚ :=
  basePositionY hm baseThickness + baseThickness / 2

/-- World y of the bottom plane of the base box: center - height/2. -/
def basePlateBottomY (hm : Heightmap) (baseThickness : ℚ) : ℚ :=
  basePositionY hm baseThickness - baseThickness / 2

/-- Local `baseY = minY - baseThickness` of SideWalls (line 163): the y
of every skirt-wall bottom vertex. -/
def skirtBaseY (hm : Heightmap) (baseThickness : ℚ) : ℚ :=
  minYv hm - baseThickness

/-- Function `addQuad` of SideWalls (lines 184-194): four positions, the
triangles `(0, 1, 2)` and `(0, 2, 3)` of them. -/
def addQuad (p1 p2 p3 p4 : Vec3) : List Tri :=
  [ { a := p1, b := p2, c := p3 }, { a := p1, b := p3, c := p4 } ]

/-- The skirt-wall triangles, the four loops of SideWalls (lines
196-234): front wall at z = +halfSize with heights `getY 0 j`, back wall
at z = -halfSize with `getY (rows-1) j`, left wall at x = -halfSize and
right wall at x = +halfSize, all dropping to `skirtBaseY`. -/
def sideWallTriangles (hm : Heightmap) (baseThickness : ℚ) : List Tri :=
  let rows := rowsOf hm
  let cols := colsOf hm
  let halfSize := footprintSize / 2
  let baseY := skirtBaseY hm baseThickness
  ((List.range (cols - 1)).flatMap fun j =>
    let x1 := -halfSize + ((j : ℚ) / ((cols : ℚ) - 1)) * footprintSize
    let x2 := -halfSize + (((j : ℚ) + 1) / ((cols : ℚ) - 1)) * footprintSize
    let z := halfSize
    let y1 := getY hm 0 j
    let y2 := getY hm 0 (j + 1)
    addQuad ⟨x1, y1, z⟩ ⟨x2, y2, z⟩ ⟨x2, baseY, z⟩ ⟨x1, baseY, z⟩) ++
  ((List.range (cols - 1)).flatMap fun j =>
    let x1 := -halfSize + ((j : ℚ) / ((cols : ℚ) - 1)) * footprintSize
    let x2 := -halfSize + (((j : ℚ) + 1) / ((cols : ℚ) - 1)) * footprintSize
    let z := -halfSize
    let y1 := getY hm (rows - 1) j
    let y2 := getY hm (rows - 1) (j + 1)
    addQuad ⟨x2, y2, z⟩ ⟨x1, y1, z⟩ ⟨x1, baseY, z⟩ ⟨x2, baseY, z⟩) ++
  ((List.range (rows - 1)).flatMap fun i =>
    let z1 := halfSize - ((i : ℚ) / ((rows : ℚ) - 1)) * footprintSize
    let z2 := halfSize - (((i : ℚ) + 1) / ((rows : ℚ) - 1)) * footprintSize
    let x := -halfSize
    let y1 := getY hm i 0
    let y2 := getY hm (i + 1) 0
    addQuad ⟨x, y2, z2⟩ ⟨x, y1, z1⟩ ⟨x, baseY, z1⟩ ⟨x, baseY, z2⟩) ++
  ((List.range (rows - 1)).flatMap fun i =>
    let z1 := halfSize - ((i : ℚ) / ((rows : ℚ) - 1)) * footprintSize
    let z2 := halfSize - (((i : ℚ) + 1) / ((rows : ℚ) - 1)) * footprintSize
    let x := halfSize
    let y1 := getY hm i (cols - 1)
    let y2 := getY hm (i + 1) (cols - 1)
    addQuad ⟨x, y1, z1⟩ ⟨x, y2, z2⟩ ⟨x, baseY, z2⟩ ⟨x, baseY, z1⟩)

/-- The whole rendered preview solid with `showBase = true`: terrain
surface, base box, skirt walls. -/
def fullPreviewMesh (hm : Heightmap) (baseThickness : ℚ) : List Tri :=
  surfaceTriangles hm ++ baseTriangles hm baseThickness ++
    sideWallTriangles hm baseThickness

/-- Whether the unordered pair of positions is one of the three sides of
a triangle. -/
def triHasEdge (t : Tri) (p q : Vec3) : Bool :=
  (t.a = p && t.b = q) || (t.b = p && t.a = q) ||
    (t.b = p && t.c = q) || (t.c = p && t.b = q) ||
      (t.c = p && t.a = q) || (t.a = p && t.c = q)

/-- Number of triangles of the mesh incident to the edge with endpoint
positions p and q. -/
def edgeIncidence (mesh : List Tri) (p q : Vec3) : ℕ :=
  (mesh.filter fun t => triHasEdge t p q).length

/-! ## Helper lemmas about the folded minima and maxima -/

lemma foldl_min_le_init (xs : List ℚ) (a : ℚ) : xs.foldl min a ≤ a := by
  induction xs generalizing a with
  | nil => simp
  | cons y ys ih =>
      calc (y :: ys).foldl min a = ys.foldl min (min a y) := rfl
        _ ≤ min a y := ih (min a y)
        _ ≤ a := min_le_left a y

lemma foldl_min_le_mem (xs : List ℚ) (a x : ℚ) (hx : x ∈ xs) :
    xs.foldl min a ≤ x := by
  induction xs generalizing a with
  | nil => cases hx
  | cons y ys ih =>
      rcases List.mem_cons.mp hx with rfl | hmem
      · calc (x :: ys).foldl min a = ys.foldl min (min a x) :=
            rfl
          _ ≤ min a x := foldl_min_le_init ys (min a x)
          _ ≤ x := min_le_right a x
      · exact ih (min a y) hmem

lemma listMin_le (l : List ℚ) (x : ℚ) (hx : x ∈ l) : listMin l ≤ x := by
  match l, hx with
  | y :: ys, hx =>
      rcases List.mem_cons.mp hx with rfl | hmem
      · exact foldl_min_le_init ys x
      · exact foldl_min_le_mem ys y x hmem

lemma init_le_foldl_max (xs : List ℚ) (a : ℚ) : a ≤ xs.foldl max a := by
  induction xs generalizing a with
  | nil => simp
  | cons y ys ih =>
      calc a ≤ max a y := le_max_left a y
        _ ≤ ys.foldl max (max a y) := ih (max a y)
        _ = (y :: ys).foldl max a := rfl

lemma mem_le_foldl_max (xs : List ℚ) (a x : ℚ) (hx : x ∈ xs) :
    x ≤ xs.foldl max a := by
  induction xs generalizing a with
  | nil => cases hx
  | cons y ys ih =>
      rcases List.mem_cons.mp hx with rfl | hmem
      · calc x ≤ max a x := le_max_right a x
          _ ≤ ys.foldl max (max a x) := init_le_foldl_max ys (max a x)
          _ = (x :: ys).foldl max a := rfl
      · exact ih (max a y) hmem

lemma le_listMax (l : List ℚ) (x : ℚ) (hx : x ∈ l) : x ≤ listMax l := by
  match l, hx with
  | y :: ys, hx =>
      rcases List.mem_cons.mp hx with rfl | hmem
      · exact init_le_foldl_max ys x
      · exact mem_le_foldl_max ys y x hmem

lemma foldl_min_const (xs : List ℚ) (c : ℚ) (hall : ∀ x ∈ xs, x = c) :
    xs.foldl min c = c := by
  induction xs with
  | nil => rfl
  | cons y ys ih =>
      have hy : y = c := hall y (List.mem_cons_self y ys)
      have hrest : ∀ x ∈ ys, x = c := fun x hx =>
        hall x (List.mem_cons_of_mem y hx)
      calc (y :: ys).foldl min c = ys.foldl min (min c y) := rfl
        _ = ys.foldl min c := by rw [hy, min_self]
        _ = c := ih hrest

lemma listMin_const (l : List ℚ) (c : ℚ) (hne : l ≠ [])
    (hall : ∀ x ∈ l, x = c) : listMin l = c := by
  match l, hne with
  | y :: ys, _ =>
      have hy : y = c := hall y (List.mem_cons_self y ys)
      have hrest : ∀ x ∈ ys, x = c := fun x hx =>
        hall x (List.mem_cons_of_mem y hx)
      calc listMin (y :: ys) = ys.foldl min y := rfl
        _ = ys.foldl min c := by rw [hy]
        _ = c := foldl_min_const ys c hrest

/-- In-range raw access lands inside the flattened grid, provided the
grid is rectangular. -/
lemma elevAt_mem_flatten (hm : Heightmap)
    (hRect : ∀ row ∈ hm, row.length = colsOf hm)
    (i j : ℕ) (hi : i < rowsOf hm) (hj : j < colsOf hm) :
    elevAt hm i j ∈ hm.flatten := by
  have hi' : i < hm.length := hi
  have hrow : hm.getD i [] = hm.get ⟨i, hi'⟩ := by
    rw [List.getD_eq_getElem hm [] hi']
    simp
  have hrowmem : hm.get ⟨i, hi'⟩ ∈ hm := hm.get_mem i hi'
  have hlen : (hm.get ⟨i, hi'⟩).length = colsOf hm :=
    hRect _ hrowmem
  have hj' : j < (hm.get ⟨i, hi'⟩).length := by rw [hlen]; exact hj
  have hentry : (hm.get ⟨i, hi'⟩).getD j 0 = (hm.get ⟨i, hi'⟩).get ⟨j, hj'⟩ := by
    rw [List.getD_eq_getElem _ 0 hj']
    simp
  have hmem : (hm.get ⟨i, hi'⟩).get ⟨j, hj'⟩ ∈ hm.get ⟨i, hi'⟩ :=
    (hm.get ⟨i, hi'⟩).get_mem j hj'
  have : elevAt hm i j ∈ hm.get ⟨i, hi'⟩ := by
    unfold elevAt
    rw [hrow, hentry]
    exact hmem
  exact List.mem_flatten.mpr ⟨hm.get ⟨i, hi'⟩, hrowmem, this⟩

/-- Normalization sends any member of the grid into the unit
interval. -/
lemma normalizedOf_bounds (hm : Heightmap) (e : ℚ) (he : e ∈ hm.flatten) :
    0 ≤ normalizedOf hm e ∧ normalizedOf hm e ≤ 1 := by
  have hmin : minElev hm ≤ e := listMin_le hm.flatten e he
  have hmax : e ≤ maxElev hm := le_listMax hm.flatten e he
  unfold normalizedOf elevRange
  by_cases h0 : maxElev hm - minElev hm = 0
  · have hez : e - minElev hm = 0 := by
      have : e = minElev hm := le_antisymm (by linarith) hmin
      linarith
    rw [if_pos h0, hez]
    norm_num
  · have hpos : 0 < maxElev hm - minElev hm := by
      have : minElev hm ≤ maxElev hm := le_trans hmin hmax
      rcases lt_or_eq_of_le this with h | h
      · linarith
      · exact absurd (by linarith) h0
    rw [if_neg h0]
    constructor
    · exact div_nonneg (by linarith) (le_of_lt hpos)
    · rw [div_le_one hpos]
      linarith

/-- Triangle count of the terrain surface, no matter the heights. -/
lemma surfaceTriangles_length (hm : Heightmap) :
    (surfaceTriangles hm).length =
      2 * ((rowsOf hm - 1) * (colsOf hm - 1)) := by
  unfold surfaceTriangles
  simp [List.length_flatMap, Function.comp_def, List.map_const]
  ring

/-- Vertex count of the terrain surface loop. -/
lemma surfaceYs_length (hm : Heightmap) :
    (surfaceYs hm).length = rowsOf hm * colsOf hm := by
  unfold surfaceYs
  simp [List.length_flatMap, Function.comp_def, List.map_const]

/-! ## Claim C5 -/

/-- C5: for every resolution r ≥ 2, `estimateTriangles` returns
2·(r−1)² without a base and 2·(r−1)² + 2·(r−1)² + 4·2·(r−1) with one;
in particular `estimateTriangles 64 false = 7938`. -/
theorem estimateTriangles_closed_form (r : ℕ) (hr : 2 ≤ r) :
    estimateTriangles r false = 2 * (r - 1) ^ 2 ∧
    estimateTriangles r true =
      2 * (r - 1) ^ 2 + 2 * (r - 1) ^ 2 + 4 * 2 * (r - 1) ∧
    estimateTriangles 64 false = 7938 := by
  refine ⟨rfl, rfl, by decide⟩

/-- Witness for `estimateTriangles_closed_form` at r = 64. -/
theorem estimateTriangles_closed_form_witness :
    2 ≤ 64 ∧
      (estimateTriangles 64 false = 2 * (64 - 1) ^ 2 ∧
        estimateTriangles 64 true =
          2 * (64 - 1) ^ 2 + 2 * (64 - 1) ^ 2 + 4 * 2 * (64 - 1) ∧
        estimateTriangles 64 false = 7938) :=
  ⟨by decide, estimateTriangles_closed_form 64 (by decide)⟩

/-! ## Claim C4 -/

/-- C4 counterexample: at resolution 128 without base the estimated
file size is 1,612,984 bytes, not the 1,613,684 the claim states. -/
theorem estimateFileSize_128_counterexample :
    estimateFileSize 128 false = 1612984 ∧
      ¬ estimateFileSize 128 false = 1613684 := by
  refine ⟨by decide, by decide⟩

/-- C4 amended: the estimated export file size equals
84 + estimatedTriangles·50 bytes for every resolution and base flag,
and at r = 128 with addBase = false it equals 1,612,984 bytes. -/
theorem estimateFileSize_formula :
    (∀ r b, estimateFileSize r b = 84 + estimateTriangles r b * 50) ∧
      estimateFileSize 128 false = 1612984 :=
  ⟨fun _ _ => rfl, by decide⟩

/-! ## Claim C6 -/

/-- C6: the fetch resolution is capped at 64 (hence at most 4096 points),
and the batch total shown by progress is the ceiling of
min(resolution,64)²/500, which never exceeds 9. -/
theorem fetch_cap_and_batch_bound (r : ℕ) :
    fetchResolution r = min r 64 ∧
    totalPoints r ≤ 64 * 64 ∧
    totalBatches r = ⌈((min r 64 : ℚ) * (min r 64 : ℚ)) / 500⌉ ∧
    totalBatches r ≤ 9 := by
  have hf : fetchResolution r ≤ 64 := min_le_right r 64
  have hp : totalPoints r ≤ 64 * 64 := Nat.mul_le_mul hf hf
  refine ⟨rfl, hp, ?_, ?_⟩
  · unfold totalBatches totalPoints fetchResolution batchSize
    push_cast
    rfl
  · unfold totalBatches batchSize
    rw [Int.ceil_le]
    push_cast
    rw [div_le_iff₀ (by norm_num : (0 : ℚ) < 500)]
    have hq : (totalPoints r : ℚ) ≤ 4096 := by exact_mod_cast hp
    linarith

/-- Witness for `fetch_cap_and_batch_bound` at the default resolution
128. -/
theorem fetch_cap_and_batch_bound_witness :
    fetchResolution 128 = min 128 64 ∧
    totalPoints 128 ≤ 64 * 64 ∧
    totalBatches 128 = ⌈((min 128 64 : ℚ) * (min 128 64 : ℚ)) / 500⌉ ∧
    totalBatches 128 ≤ 9 :=
  fetch_cap_and_batch_bound 128

/-! ## Claim C9 -/

/-- C9: requesting an STL export with no generated terrain is a guarded
no-op: the state is returned untouched in every field and no export is
initiated. -/
theorem downloadSTL_noop_without_terrain (sess : Session) (o : Outcome Unit)
    (h : sess.state.terrain = none) :
    downloadSTLRun o sess = (sess, false) := by
  unfold downloadSTLRun
  rw [h]

/-- Witness for `downloadSTL_noop_without_terrain` at the hook's initial
state and default settings. -/
theorem downloadSTL_noop_without_terrain_witness :
    downloadSTLRun (.ok ())
        ⟨⟨none, false, false, none, none⟩, ⟨128, 3/2, 1, 3/2, true, 5⟩⟩ =
      (⟨⟨none, false, false, none, none⟩, ⟨128, 3/2, 1, 3/2, true, 5⟩⟩,
        false) :=
  downloadSTL_noop_without_terrain
    ⟨⟨none, false, false, none, none⟩, ⟨128, 3/2, 1, 3/2, true, 5⟩⟩
    (.ok ()) rfl

/-! ## Claim C10 -/

/-- Progress ticks only rewrite the progress field; terrain, loading,
exporting and error flags pass through untouched. -/
lemma ticks_preserve_fields (r : ℕ) (l : List ℕ) (s : TerrainState) :
    (l.foldl (fun s k => progressTick r (k + 1) s) s).terrain = s.terrain ∧
    (l.foldl (fun s k => progressTick r (k + 1) s) s).isExporting =
      s.isExporting ∧
    (l.foldl (fun s k => progressTick r (k + 1) s) s).isLoading =
      s.isLoading ∧
    (l.foldl (fun s k => progressTick r (k + 1) s) s).error = s.error := by
  induction l generalizing s with
  | nil => exact ⟨rfl, rfl, rfl, rfl⟩
  | cons k ks ih =>
      have hstep :
          (progressTick r (k + 1) s).terrain = s.terrain ∧
          (progressTick r (k + 1) s).isExporting = s.isExporting ∧
          (progressTick r (k + 1) s).isLoading = s.isLoading ∧
          (progressTick r (k + 1) s).error = s.error := by
        unfold progressTick
        split <;> exact ⟨rfl, rfl, rfl, rfl⟩
      obtain ⟨h1, h2, h3, h4⟩ := ih (progressTick r (k + 1) s)
      obtain ⟨g1, g2, g3, g4⟩ := hstep
      exact ⟨h1.trans g1, h2.trans g2, h3.trans g3, h4.trans g4⟩

/-- C10: when the terrain request fails, the previously loaded terrain,
the exporting flag and the settings are retained unchanged; only the
error message is set, loading ends and progress is cleared. -/
theorem loadTerrain_failure_frame (sess : Session) (ticks : ℕ)
    (msg : String) :
    (loadTerrainRun ticks (.error msg) sess).settings = sess.settings ∧
    (loadTerrainRun ticks (.error msg) sess).state.terrain =
      sess.state.terrain ∧
    (loadTerrainRun ticks (.error msg) sess).state.isExporting =
      sess.state.isExporting ∧
    (loadTerrainRun ticks (.error msg) sess).state.isLoading = false ∧
    (loadTerrainRun ticks (.error msg) sess).state.progress = none ∧
    (loadTerrainRun ticks (.error msg) sess).state.error = some msg := by
  obtain ⟨h1, h2, _, _⟩ := ticks_preserve_fields sess.settings.resolution
    (List.range ticks)
    (loadTerrainStart sess.settings.resolution sess.state)
  unfold loadTerrainRun loadTerrainSettle
  exact ⟨rfl, h1, h2, rfl, rfl, rfl⟩

/-- Witness for `loadTerrain_failure_frame` at a loaded session and a
network-error message, after two interval ticks. -/
theorem loadTerrain_failure_frame_witness :
    (loadTerrainRun 2 (.error "Failed to load terrain")
        ⟨⟨none, false, false, none, none⟩,
          ⟨128, 3/2, 1, 3/2, true, 5⟩⟩).settings =
      (⟨⟨none, false, false, none, none⟩,
        ⟨128, 3/2, 1, 3/2, true, 5⟩⟩ : Session).settings ∧
    (loadTerrainRun 2 (.error "Failed to load terrain")
        ⟨⟨none, false, false, none, none⟩,
          ⟨128, 3/2, 1, 3/2, true, 5⟩⟩).state.terrain =
      (⟨⟨none, false, false, none, none⟩,
        ⟨128, 3/2, 1, 3/2, true, 5⟩⟩ : Session).state.terrain ∧
    (loadTerrainRun 2 (.error "Failed to load terrain")
        ⟨⟨none, false, false, none, none⟩,
          ⟨128, 3/2, 1, 3/2, true, 5⟩⟩).state.isExporting =
      (⟨⟨none, false, false, none, none⟩,
        ⟨128, 3/2, 1, 3/2, true, 5⟩⟩ : Session).state.isExporting ∧
    (loadTerrainRun 2 (.error "Failed to load terrain")
        ⟨⟨none, false, false, none, none⟩,
          ⟨128, 3/2, 1, 3/2, true, 5⟩⟩).state.isLoading = false ∧
    (loadTerrainRun 2 (.error "Failed to load terrain")
        ⟨⟨none, false, false, none, none⟩,
          ⟨128, 3/2, 1, 3/2, true, 5⟩⟩).state.progress = none ∧
    (loadTerrainRun 2 (.error "Failed to load terrain")
        ⟨⟨none, false, false, none, none⟩,
          ⟨128, 3/2, 1, 3/2, true, 5⟩⟩).state.error =
      some "Failed to load terrain" :=
  loadTerrain_failure_frame
    ⟨⟨none, false, false, none, none⟩, ⟨128, 3/2, 1, 3/2, true, 5⟩⟩ 2
    "Failed to load terrain"

/-! ## Claim C7 -/

/-- C7: normalization never divides by zero: on a flat grid every
normalized height and every vertex height is 0 while the surface still
has its full vertex and triangle count, and on every rectangular grid
the normalized height of each sample lies in [0, 1]. -/
theorem flat_grid_safe (hm : Heightmap)
    (hRect : ∀ row ∈ hm, row.length = colsOf hm)
    (hne : hm.flatten ≠ []) :
    (∀ e ∈ hm.flatten, 0 ≤ normalizedOf hm e ∧ normalizedOf hm e ≤ 1) ∧
    ∀ c, (∀ e ∈ hm.flatten, e = c) →
      (∀ i j, i < rowsOf hm → j < colsOf hm →
        normalizedOf hm (surfaceElev hm i j) = 0 ∧ surfaceY hm i j = 0) ∧
      (surfaceTriangles hm).length =
        2 * ((rowsOf hm - 1) * (colsOf hm - 1)) ∧
      (surfaceYs hm).length = rowsOf hm * colsOf hm := by
  constructor
  · exact fun e he => normalizedOf_bounds hm e he
  · intro c hflat
    refine ⟨?_, surfaceTriangles_length hm, surfaceYs_length hm⟩
    intro i j hi hj
    have hidx : rowsOf hm - 1 - i < rowsOf hm := by omega
    have hmem : surfaceElev hm i j ∈ hm.flatten :=
      elevAt_mem_flatten hm hRect (rowsOf hm - 1 - i) j hidx hj
    have hc : surfaceElev hm i j = c := hflat _ hmem
    have hminc : minElev hm = c :=
      listMin_const hm.flatten c hne hflat
    have h0 : normalizedOf hm (surfaceElev hm i j) = 0 := by
      unfold normalizedOf
      rw [hc, hminc]
      simp
    refine ⟨h0, ?_⟩
    unfold surfaceY
    rw [h0]
    ring

/-- Witness for `flat_grid_safe` on the flat 2×2 grid. -/
theorem flat_grid_safe_witness :
    (∀ row ∈ ([[0, 0], [0, 0]] : Heightmap),
        row.length = colsOf [[0, 0], [0, 0]]) ∧
    ([[0, 0], [0, 0]] : Heightmap).flatten ≠ [] ∧
    ((∀ e ∈ ([[0, 0], [0, 0]] : Heightmap).flatten,
        0 ≤ normalizedOf [[0, 0], [0, 0]] e ∧
          normalizedOf [[0, 0], [0, 0]] e ≤ 1) ∧
      ∀ c, (∀ e ∈ ([[0, 0], [0, 0]] : Heightmap).flatten, e = c) →
        (∀ i j, i < rowsOf [[0, 0], [0, 0]] → j < colsOf [[0, 0], [0, 0]] →
          normalizedOf [[0, 0], [0, 0]]
              (surfaceElev [[0, 0], [0, 0]] i j) = 0 ∧
            surfaceY [[0, 0], [0, 0]] i j = 0) ∧
        (surfaceTriangles [[0, 0], [0, 0]]).length =
          2 * ((rowsOf [[0, 0], [0, 0]] - 1) *
            (colsOf [[0, 0], [0, 0]] - 1)) ∧
        (surfaceYs [[0, 0], [0, 0]]).length =
          rowsOf [[0, 0], [0, 0]] * colsOf [[0, 0], [0, 0]]) :=
  ⟨by simp [colsOf], by simp,
    flat_grid_safe [[0, 0], [0, 0]] (by simp [colsOf]) (by simp)⟩

/-! ## Claim C8 -/

/-- Default access into a reversed list is default access at the
mirrored index. -/
lemma getD_reverse (l : List (List ℚ)) (i : ℕ) (hi : i < l.length) :
    l.reverse.getD i [] = l.getD (l.length - 1 - i) [] := by
  have h1 : i < l.reverse.length := by simpa using hi
  have h2 : l.length - 1 - i < l.length := by omega
  rw [List.getD_eq_getElem _ _ h1, List.getD_eq_getElem _ _ h2]
  exact List.getElem_reverse h1

/-- C8: the elevation used for surface vertex (i, j) — and the one the
skirt-wall `getY` uses — is the row-(R−1−i), column-j sample, i.e. row i
of the vertically flipped grid. -/
theorem row_flip_lookup (hm : Heightmap) (i j : ℕ) (hi : i < rowsOf hm) :
    surfaceElev hm i j = elevAt hm.reverse i j ∧
    getYElev hm i j = surfaceElev hm i j := by
  refine ⟨?_, rfl⟩
  unfold surfaceElev elevAt rowsOf
  rw [getD_reverse hm i hi]

/-- Witness for `row_flip_lookup` at the 2×2 grid, vertex (0, 1). -/
theorem row_flip_lookup_witness :
    surfaceElev [[0, 1], [2, 3]] 0 1 = elevAt [[0, 1], [2, 3]].reverse 0 1 ∧
    getYElev [[0, 1], [2, 3]] 0 1 = surfaceElev [[0, 1], [2, 3]] 0 1 :=
  row_flip_lookup [[0, 1], [2, 3]] 0 1 (by simp [rowsOf])

/-! ## Claim C2 -/

/-- Every skirt-wall triangle keeps its third emitted vertex on the
plane y = skirtBaseY (the `addQuad` calls always pass `baseY` there). -/
lemma sideWall_bottom_plane (hm : Heightmap) (t : ℚ) :
    ∀ tri ∈ sideWallTriangles hm t, tri.c.y = skirtBaseY hm t := by
  intro tri htri
  simp only [sideWallTriangles, addQuad, List.mem_append, List.mem_flatMap,
    List.mem_cons, List.not_mem_nil, or_false] at htri
  rcases htri with ((⟨j, _, h⟩ | ⟨j, _, h⟩) | ⟨i, _, h⟩) | ⟨i, _, h⟩ <;>
    rcases h with rfl | rfl <;> rfl

/-- Every vertex of the rendered base box lies on one of the two planes
y = basePlateBottomY or y = basePlateTopY. -/
lemma base_box_vertex_planes (hm : Heightmap) (t : ℚ) :
    ∀ tri ∈ baseTriangles hm t, ∀ p ∈ [tri.a, tri.b, tri.c],
      p.y = basePlateBottomY hm t ∨ p.y = basePlateTopY hm t := by
  intro tri htri
  simp only [baseTriangles, List.mem_map] at htri
  obtain ⟨tri0, h0, rfl⟩ := htri
  simp only [boxTriangles, buildPlane1, planeVert, axisSet,
    List.mem_append, List.mem_cons, List.not_mem_nil, or_false] at h0
  intro p hp
  unfold basePlateBottomY basePlateTopY basePositionY
  rcases h0 with
    (((((rfl | rfl) | (rfl | rfl)) | (rfl | rfl)) | (rfl | rfl)) |
      (rfl | rfl)) | (rfl | rfl) <;>
    simp only [triTranslateY, translateY, List.mem_cons, List.not_mem_nil,
      or_false] at hp <;>
    rcases hp with rfl | rfl | rfl <;>
    simp only [basePositionY] <;>
    push_cast <;>
    ring_nf <;>
    simp

/-- C2 counterexample: on the flat 2×2 grid with baseThickness 1 the
base plate's top plane is at minY = 0, not at
minY − baseThickness = −1 where the skirt bottom lies: the two planes
are not snapped to the one shared value the claim states. -/
theorem base_top_plane_counterexample :
    ¬ basePlateTopY [[0, 0], [0, 0]] 1 = minYv [[0, 0], [0, 0]] - 1 ∧
    skirtBaseY [[0, 0], [0, 0]] 1 = minYv [[0, 0], [0, 0]] - 1 := by
  have hmin : minYv [[0, 0], [0, 0]] = 0 := by
    norm_num [minYv, surfaceYs, surfaceY, normalizedOf, surfaceElev, elevAt,
      minElev, maxElev, elevRange, listMin, listMax, rowsOf, colsOf,
      List.range_succ, List.flatten]
  constructor
  · rw [hmin]
    unfold basePlateTopY basePositionY
    rw [hmin]
    norm_num
  · rw [hmin]
    unfold skirtBaseY
    rw [hmin]

/-- C2 amended: for every heightmap and every baseThickness > 0, the
skirt walls' bottom plane and the base plate's bottom plane lie at the
one shared value baseY = minTerrainHeight − baseThickness, while the
base plate's top plane lies at minTerrainHeight itself, strictly above
the shared bottom plane. -/
theorem shared_base_plane (hm : Heightmap) (t : ℚ) (ht : 0 < t) :
    skirtBaseY hm t = minYv hm - t ∧
    basePlateBottomY hm t = skirtBaseY hm t ∧
    basePlateTopY hm t = minYv hm ∧
    basePlateBottomY hm t < basePlateTopY hm t ∧
    (∀ tri ∈ sideWallTriangles hm t, tri.c.y = skirtBaseY hm t) ∧
    (∀ tri ∈ baseTriangles hm t, ∀ p ∈ [tri.a, tri.b, tri.c],
      p.y = basePlateBottomY hm t ∨ p.y = basePlateTopY hm t) := by
  refine ⟨rfl, ?_, ?_, ?_, sideWall_bottom_plane hm t,
    base_box_vertex_planes hm t⟩
  · unfold basePlateBottomY basePositionY skirtBaseY
    ring
  · unfold basePlateTopY basePositionY
    ring
  · unfold basePlateBottomY basePlateTopY
    linarith

/-- Witness for `shared_base_plane` on the flat 2×2 grid with
baseThickness 1. -/
theorem shared_base_plane_witness :
    (0 : ℚ) < 1 ∧
    (skirtBaseY [[0, 0], [0, 0]] 1 = minYv [[0, 0], [0, 0]] - 1 ∧
      basePlateBottomY [[0, 0], [0, 0]] 1 = skirtBaseY [[0, 0], [0, 0]] 1 ∧
      basePlateTopY [[0, 0], [0, 0]] 1 = minYv [[0, 0], [0, 0]] ∧
      basePlateBottomY [[0, 0], [0, 0]] 1 < basePlateTopY [[0, 0], [0, 0]] 1 ∧
      (∀ tri ∈ sideWallTriangles [[0, 0], [0, 0]] 1,
        tri.c.y = skirtBaseY [[0, 0], [0, 0]] 1) ∧
      (∀ tri ∈ baseTriangles [[0, 0], [0, 0]] 1,
        ∀ p ∈ [tri.a, tri.b, tri.c],
          p.y = basePlateBottomY [[0, 0], [0, 0]] 1 ∨
            p.y = basePlateTopY [[0, 0], [0, 0]] 1)) :=
  ⟨by norm_num, shared_base_plane [[0, 0], [0, 0]] 1 (by norm_num)⟩

/-! ## Claim C1 -/

/-- A state update delivered to the hook by some `loadTerrain` run: its
start `setState`, one of its interval ticks, or its settling `setState`.
The closures in useTerrain.ts carry no run token, so a delivery applies
to whatever state is current regardless of which run produced it. -/
inductive Delivery
  | start (resolution : ℕ)
  | tick (resolution : ℕ) (currentBatch : ℕ)
  | settle (outcome : Outcome TerrainResponse)

/-- Applying one delivery, exactly as the corresponding `setState`
closure does. -/
def applyDelivery (s : TerrainState) : Delivery → TerrainState
  | .start r => loadTerrainStart r s
  | .tick r n => progressTick r n s
  | .settle o => loadTerrainSettle o s

/-- Folding a sequence of deliveries over the hook state in arrival
order. -/
def runDeliveries (s : TerrainState) (ds : List Delivery) : TerrainState :=
  ds.foldl applyDelivery s

/-- The hook's initial state (useTerrain.ts lines 29-35). -/
def initialState : TerrainState :=
  { terrain := none, isLoading := false, isExporting := false,
    error := none, progress := none }

/-- Sample metadata for concrete terrain responses. -/
def sampleMeta : TerrainMetadata :=
  { center_lat := 0, center_lon := 0, min_elevation := 0,
    max_elevation := 0, data_source := "srtm", timestamp := "t0",
    resolution := 128 }

/-- Result of the superseded request A. -/
def terrainA : TerrainResponse :=
  { id := "A", heightmap := [[0, 0], [0, 0]], metadata := sampleMeta,
    bounds := { lat_min := 0, lat_max := 1, lon_min := 0, lon_max := 1 } }

/-- Result of the superseding request B. -/
def terrainB : TerrainResponse :=
  { id := "B", heightmap := [[0, 0], [0, 0]], metadata := sampleMeta,
    bounds := { lat_min := 0, lat_max := 1, lon_min := 0, lon_max := 1 } }

/-- C1 failing run: request A starts, request B starts before A
completes, B settles with terrainB — and then A's still-live interval
tick overwrites the progress field, and A's late result overwrites the
terrain. The final terrain is A's, not B's, and a progress event of A is
observed after B started: the claim's required cancellation does not
hold on this code. -/
theorem stale_delivery_not_suppressed :
    (runDeliveries initialState
        [.start 128, .start 128, .settle (.ok terrainB),
          .tick 128 3]).progress ≠ none ∧
    (runDeliveries initialState
        [.start 128, .start 128, .settle (.ok terrainB), .tick 128 3,
          .settle (.ok terrainA)]).terrain = some terrainA ∧
    terrainA ≠ terrainB := by
  have hbatch : (totalBatches 128).toNat = 9 := by
    have h9 : totalBatches 128 = 9 := by
      unfold totalBatches totalPoints fetchResolution batchSize
      norm_num
      rw [Int.ceil_eq_iff]
      norm_num
    rw [h9]
    rfl
  refine ⟨?_, ?_, ?_⟩
  · simp [runDeliveries, applyDelivery, loadTerrainStart, loadTerrainSettle,
      progressTick, hbatch]
  · simp [runDeliveries, applyDelivery, loadTerrainStart, loadTerrainSettle,
      progressTick, hbatch]
  · simp [terrainA, terrainB]

/-! ## Claim C3 -/

/-- C3 failing input: on the 2×2 grid [[0,1],[2,3]] with showBase = true
and baseThickness 1, the terrain surface's boundary edge from
(−5, 0, 5) to (5, 1, 5) is incident to exactly one triangle of the whole
preview mesh (surface + base box + skirt walls), so the mesh has a
boundary edge and is not a closed 2-manifold as the claim requires. -/
theorem preview_mesh_boundary_edge :
    edgeIncidence (fullPreviewMesh [[0, 1], [2, 3]] 1)
      ⟨-5, 0, 5⟩ ⟨5, 1, 5⟩ = 1 := by
  norm_num [edgeIncidence, fullPreviewMesh, surfaceTriangles, baseTriangles,
    sideWallTriangles, boxTriangles, buildPlane1, planeVert, axisSet,
    triTranslateY, translateY, basePositionY, skirtBaseY, minYv, surfaceYs,
    surfaceVertex, surfaceY, getY, getYElev, normalizedOf, surfaceElev,
    elevAt, minElev, maxElev, elevRange, listMin, listMax, rowsOf, colsOf,
    footprintSize, addQuad, List.range_succ, List.filter, triHasEdge,
    Vec3.mk.injEq, List.flatten]

end Terrain3d
